import Mathlib

/-!
Verification of the thread-lifecycle wrapper in `src/threading/thread.cpp`
(the `Thread` class: constructor, `start`, `stop`, `wait`, `kill`,
`getReturnValue`, `getNumberOfProcessors`, `setPriority`).

The embedding is a shallow one: the mutable members of `Thread` become the
fields of a record `Thread.State`, and each member function becomes a pure
function from a state (plus explicit parameters standing for the
environment: whether the native spawn succeeds, the value the work function
returns, the scheduling bounds reported by the platform) to a result and a
new state.  The blocking operations are modelled by their observable
steady-state effect at the moment they return:

* `Thread::start` busy-waits until the spawned trampoline (`threadProc`)
  has set `m_running = true`; on success the post-state therefore already
  reflects the trampoline having passed the startup barrier (it re-locks
  `m_start_finished_mutex` and holds it until the instance is destroyed).
* `Thread::wait` blocks in `m_thread_obj->join()` until the native context
  terminates.  If the work function was still executing, the tail of
  `threadProc` (`m_retval = run(); m_running = false;`) runs before the
  join returns, which the model folds into `wait` via the `v` parameter
  (the value the in-flight run returns).  A context cancelled by `kill`
  never executes that tail, which the model reflects because `kill` flips
  `m_running` to `false` before its internal `wait`.
* `Thread::kill` is modelled on the POSIX (`pthread_cancel` + `wait`)
  path, the one the specification describes.

The opaque `void *` return slot is modelled as `Option Nat`, with `none`
standing for the C++ `NULL` pointer.
-/

namespace Thread

/-- The `void *` return channel of the work function: `none` models the
C++ `NULL` pointer, `some n` a non-null payload. -/
abbrev RetVal := Option Nat

/-- The mutable members of class `Thread` that the lifecycle functions in
`thread.cpp` read or write.  `m_thread_obj : Bool` records whether the
native handle is non-null (`new std::thread` succeeded and it has not been
deleted); `m_start_finished_locked` is the locked/unlocked status of
`m_start_finished_mutex`. -/
structure State where
  m_name : String
  m_retval : RetVal
  m_joinable : Bool
  m_request_stop : Bool
  m_running : Bool
  m_thread_obj : Bool
  m_start_finished_locked : Bool
deriving Repr, DecidableEq

/-- `Thread::Thread(const std::string &name)` (thread.cpp:61-71): member
initializer list sets `m_retval = NULL`, `m_joinable = false`,
`m_request_stop = false`, `m_running = false`.  The native handle and the
startup mutex begin empty/unlocked (the in-class member initializers live
in the class header, which only declares them; per the spec the handle is
"null when no thread is active" and a fresh mutex is unlocked). -/
def mkState (name : String) : State :=
  { m_name := name
    m_retval := none
    m_joinable := false
    m_request_stop := false
    m_running := false
    m_thread_obj := false
    m_start_finished_locked := false }

/-- Tail of the trampoline `Thread::threadProc` (thread.cpp:200-202) when
the work function returns normally with value `v`:
`m_retval = run(); m_running = false;`. -/
def threadFinish (s : State) (v : RetVal) : State :=
  { s with m_retval := v, m_running := false }

/-- `Thread::start()` (thread.cpp:85-112).  `spawnOk` tells whether
`new std::thread(threadProc, this)` succeeds or throws
`std::system_error`.  Steps in source order: if `m_running`, return false;
`m_request_stop = false`; `m_start_finished_mutex.try_lock()` (so the
mutex is locked from here on, whether or not it already was); spawn — on
throw, return false right there (the mutex is never unlocked on this
path); on success unlock the mutex, busy-wait until the trampoline sets
`m_running = true`, set `m_joinable = true`, return true.  The trampoline
then re-acquires the startup mutex and keeps it, so the steady post-state
has it locked. -/
def start (s : State) (spawnOk : Bool) : Bool × State :=
  if s.m_running then (false, s)
  else
    let s1 := { s with m_request_stop := false, m_start_finished_locked := true }
    if spawnOk then
      (true, { s1 with
        m_thread_obj := true
        m_running := true
        m_joinable := true
        m_start_finished_locked := true })
    else
      (false, s1)

/-- `Thread::stop()` (thread.cpp:115-119): `m_request_stop = true; return
true;` — unconditional, no branch, no blocking call. -/
def stop (s : State) : Bool × State :=
  (true, { s with m_request_stop := true })

/-- `Thread::wait()` (thread.cpp:122-138).  If `m_joinable` is false,
return false untouched.  Otherwise `m_thread_obj->join()` blocks until the
native context terminates; when the work function is still executing the
trampoline tail (`threadFinish` with the run's value `v`) runs before the
join returns.  Then the handle is deleted and nulled,
`assert(m_running == false)` holds, `m_joinable = false`, return true. -/
def wait (s : State) (v : RetVal) : Bool × State :=
  if s.m_joinable then
    let s1 := if s.m_running then threadFinish s v else s
    (true, { s1 with m_thread_obj := false, m_joinable := false })
  else
    (false, s)

/-- `Thread::kill()` (thread.cpp:141-170), POSIX path.  If not running:
`wait()` (reaps a dangling joinable handle) and return false.  If running:
`m_running = false`, `pthread_cancel` the context (it never executes the
trampoline tail, hence no value is produced — `none` is passed to the
internal `wait`, whose `v` is unused since `m_running` is already false),
`wait()` joins it, then `m_retval = NULL; m_joinable = false;
m_request_stop = false;` and return true. -/
def kill (s : State) : Bool × State :=
  if s.m_running then
    let s1 := { s with m_running := false }
    let s2 := (wait s1 none).2
    (true, { s2 with m_retval := none, m_joinable := false, m_request_stop := false })
  else
    (false, (wait s none).2)

/-- `Thread::getReturnValue(void **ret)` (thread.cpp:173-180): false and
no write while `m_running`; otherwise writes `m_retval` to the output slot
and returns true.  The second component models the slot: `none` = not
written, `some x` = written with `x`. -/
def getReturnValue (s : State) : Bool × Option RetVal :=
  if s.m_running then (false, none)
  else (true, some s.m_retval)

/-- `Thread::getNumberOfProcessors()` (thread.cpp:259-262): returns
`std::thread::hardware_concurrency()` unmodified.  The platform-reported
count is the explicit parameter `hardwareConcurrency`; the C++ standard
allows `hardware_concurrency()` to return 0 when the value is not
computable, and the code applies no clamping. -/
def getNumberOfProcessors (hardwareConcurrency : Nat) : Nat :=
  hardwareConcurrency

/-- `Thread::setPriority(int prio)` (thread.cpp:317-338), POSIX path.
`getschedOk`/`setschedOk` model whether `pthread_getschedparam` /
`pthread_setschedparam` succeed; `schedMin`/`schedMax` are
`sched_get_priority_min/max(policy)`; `maxLevel` is the constant
`THREAD_PRIORITY_HIGHEST` declared in the class header.  The native
priority is `min + prio * (max - min) / THREAD_PRIORITY_HIGHEST` with C
integer division (truncation toward zero, `Int.tdiv`).  The second
component is the native priority that was submitted (`none` when the
initial query failed and nothing was computed). -/
def setPriority (prio schedMin schedMax maxLevel : Int)
    (getschedOk setschedOk : Bool) : Bool × Option Int :=
  if getschedOk then
    let native := schedMin + Int.tdiv (prio * (schedMax - schedMin)) maxLevel
    (setschedOk, some native)
  else
    (false, none)

/-- States of a `Thread` instance producible by the public lifecycle API
together with the asynchronous completion of an in-flight work function
(`finish`, which only fires while `m_running` is true). -/
inductive Reachable : State → Prop where
| construct (name : String) : Reachable (mkState name)
| doStart (s : State) (ok : Bool) : Reachable s → Reachable (start s ok).2
| doStop (s : State) : Reachable s → Reachable (stop s).2
| doWait (s : State) (v : RetVal) : Reachable s → Reachable (wait s v).2
| doKill (s : State) : Reachable s → Reachable (kill s).2
| finish (s : State) (v : RetVal) : Reachable s → s.m_running = true →
    Reachable (threadFinish s v)

/-- In every reachable state, a running instance is joinable and owns a
native handle (the only transition that sets `m_running` is a successful
`start`, which also sets both). -/
theorem reachable_running_joinable (s : State) (h : Reachable s) :
    s.m_running = true → s.m_joinable = true ∧ s.m_thread_obj = true := by
  induction h with
  | construct name => intro hr; simp [mkState] at hr
  | doStart s ok hs ih =>
      by_cases hr : s.m_running
      · simpa [start, hr] using ih
      · cases ok <;> simp [start, hr]
  | doStop s hs ih => simpa [stop] using ih
  | doWait s v hs ih =>
      by_cases hj : s.m_joinable
      · by_cases hr : s.m_running <;> simp [wait, hj, hr, threadFinish]
      · simpa [wait, hj] using ih
  | doKill s hs ih =>
      by_cases hr : s.m_running <;> by_cases hj : s.m_joinable <;>
        simp [kill, wait, hr, hj, threadFinish]
  | finish s v hs hr ih => simp [threadFinish]

/-- Name used for the concrete instances in witnesses and
counterexamples. -/
def wname : String := "worker"

/-- C6: `start()` called while `m_running` is true returns false and
leaves the state — every field, including the native handle — exactly as
it was. -/
theorem C6_start_while_running (s : State) (ok : Bool)
    (h : s.m_running = true) : start s ok = (false, s) := by
  simp [start, h]

/-- Witness for C6 at the state right after a successful `start` on a
fresh instance. -/
theorem C6_start_while_running_witness :
    (start (mkState wname) true).2.m_running = true ∧
    start (start (mkState wname) true).2 true =
      (false, (start (mkState wname) true).2) :=
  ⟨by decide, C6_start_while_running (start (mkState wname) true).2 true (by decide)⟩

/-- C1 fails as stated: on spawn failure `start` does mutate state — it
clears `m_request_stop` and leaves the startup mutex locked.  Concretely,
on a fresh instance after `stop()` (so `m_request_stop = true` and the
mutex is unlocked), a failing `start` returns false but `m_request_stop`
has become false and `m_start_finished_locked` has become true. -/
theorem C1_counterexample :
    (stop (mkState wname)).2.m_request_stop = true ∧
    (stop (mkState wname)).2.m_start_finished_locked = false ∧
    (start (stop (mkState wname)).2 false).1 = false ∧
    (start (stop (mkState wname)).2 false).2.m_request_stop = false ∧
    (start (stop (mkState wname)).2 false).2.m_start_finished_locked = true := by
  decide

/-- C1 (amended): if `start()` fails to spawn the native context (and the
instance was not running), it returns false and leaves `m_running`,
`m_joinable`, `m_retval` and the native handle unchanged, but
`m_request_stop` has been cleared to false and the startup mutex is left
locked (the `try_lock` at thread.cpp:95 is never undone on the throw
path). -/
theorem C1_start_spawn_failure (s : State) (h : s.m_running = false) :
    start s false =
      (false, { s with m_request_stop := false, m_start_finished_locked := true }) := by
  simp [start, h]

/-- Witness for the amended C1 on a fresh instance. -/
theorem C1_start_spawn_failure_witness :
    (mkState wname).m_running = false ∧
    start (mkState wname) false =
      (false, { mkState wname with
                  m_request_stop := false, m_start_finished_locked := true }) :=
  ⟨by decide, C1_start_spawn_failure (mkState wname) (by decide)⟩

/-- C2: `kill()` on a running (reachable) instance returns true and, by
the time it returns, `m_running` and `m_joinable` are false, `m_retval`
is null, `m_request_stop` is false, and the native context has been
joined and its handle released (`m_thread_obj` is false). -/
theorem C2_kill_running (s : State) (hre : Reachable s)
    (h : s.m_running = true) :
    (kill s).1 = true ∧
    (kill s).2.m_running = false ∧
    (kill s).2.m_joinable = false ∧
    (kill s).2.m_retval = none ∧
    (kill s).2.m_request_stop = false ∧
    (kill s).2.m_thread_obj = false := by
  obtain ⟨hj, hobj⟩ := reachable_running_joinable s hre h
  simp [kill, h, wait, hj, threadFinish]

/-- Witness for C2 at the running state produced by a successful `start`
on a fresh instance. -/
theorem C2_kill_running_witness :
    (start (mkState wname) true).2.m_running = true ∧
    (kill (start (mkState wname) true).2).1 = true ∧
    (kill (start (mkState wname) true).2).2.m_thread_obj = false :=
  have hre : Reachable (start (mkState wname) true).2 :=
    Reachable.doStart (mkState wname) true (Reachable.construct wname)
  have h := C2_kill_running (start (mkState wname) true).2 hre (by decide)
  ⟨by decide, h.1, h.2.2.2.2.2⟩

/-- C3 fails as stated: `getNumberOfProcessors` forwards the platform's
`hardware_concurrency()` value with no clamping, and that value is 0 when
the platform cannot determine the count, so the result is not always at
least 1. -/
theorem C3_counterexample :
    getNumberOfProcessors 0 = 0 ∧ ¬ 1 ≤ getNumberOfProcessors 0 := by
  decide

/-- C3 (amended): `getNumberOfProcessors` returns exactly the logical
processor count reported by the platform; it never fails, and it is at
least 1 precisely when the platform reports at least 1 (it is 0 when the
platform cannot determine the count). -/
theorem C3_processors_passthrough (hw : Nat) :
    getNumberOfProcessors hw = hw ∧
    (1 ≤ hw → 1 ≤ getNumberOfProcessors hw) :=
  ⟨rfl, fun h => h⟩

/-- Witness for the amended C3 at a platform report of 4 processors. -/
theorem C3_processors_passthrough_witness :
    getNumberOfProcessors 4 = 4 ∧ 1 ≤ getNumberOfProcessors 4 :=
  ⟨(C3_processors_passthrough 4).1, (C3_processors_passthrough 4).2 (by decide)⟩

/-- C4: `wait()` with `m_joinable` false returns false and changes
nothing; with `m_joinable` true it joins the native context (folding in
the trampoline tail when a run with value `v` was in flight), releases
the handle, satisfies the post-join assertion `m_running = false`, sets
`m_joinable` to false, and returns true. -/
theorem C4_wait_spec (s : State) (v : RetVal) :
    (s.m_joinable = false → wait s v = (false, s)) ∧
    (s.m_joinable = true →
      (wait s v).1 = true ∧
      (wait s v).2.m_thread_obj = false ∧
      (wait s v).2.m_running = false ∧
      (wait s v).2.m_joinable = false) := by
  constructor
  · intro h; simp [wait, h]
  · intro h; by_cases hr : s.m_running <;> simp [wait, h, hr, threadFinish]

/-- Witness for C4: the non-joinable half on a fresh instance, the
joinable half on the state after a successful `start`. -/
theorem C4_wait_spec_witness :
    (wait (mkState wname) none = (false, mkState wname)) ∧
    ((wait (start (mkState wname) true).2 none).1 = true ∧
      (wait (start (mkState wname) true).2 none).2.m_thread_obj = false ∧
      (wait (start (mkState wname) true).2 none).2.m_running = false ∧
      (wait (start (mkState wname) true).2 none).2.m_joinable = false) :=
  ⟨(C4_wait_spec (mkState wname) none).1 (by decide),
   (C4_wait_spec (start (mkState wname) true).2 none).2 (by decide)⟩

/-- C5: `getReturnValue` returns false and does not write the output slot
while `m_running` is true; once a run has completed with value `v` (the
trampoline tail `threadFinish`), it writes `v` and returns true. -/
theorem C5_getReturnValue_spec (s : State) (v : RetVal) :
    (s.m_running = true → getReturnValue s = (false, none)) ∧
    getReturnValue (threadFinish s v) = (true, some v) := by
  constructor
  · intro h; simp [getReturnValue, h]
  · simp [getReturnValue, threadFinish]

/-- Witness for C5 at the running state after a successful `start`, with
a run returning the non-null sentinel `some 7`. -/
theorem C5_getReturnValue_spec_witness :
    getReturnValue (start (mkState wname) true).2 = (false, none) ∧
    getReturnValue (threadFinish (start (mkState wname) true).2 (some 7)) =
      (true, some (some 7)) :=
  ⟨(C5_getReturnValue_spec (start (mkState wname) true).2 (some 7)).1 (by decide),
   (C5_getReturnValue_spec (start (mkState wname) true).2 (some 7)).2⟩

/-- C7: `kill()` while not running performs a `wait()` (reaping any
dangling joinable handle) and returns false; afterwards the instance has
`m_joinable = false` and `m_running = false`. -/
theorem C7_kill_not_running (s : State) (h : s.m_running = false) :
    kill s = (false, (wait s none).2) ∧
    (kill s).2.m_joinable = false ∧
    (kill s).2.m_running = false := by
  refine ⟨by simp [kill, h], ?_, ?_⟩ <;>
    by_cases hj : s.m_joinable <;> simp [kill, wait, h, hj, threadFinish]

/-- Witness for C7: a never-started instance, and an instance whose run
finished but was not yet waited on. -/
theorem C7_kill_not_running_witness :
    (kill (mkState wname) = (false, (wait (mkState wname) none).2) ∧
      (kill (mkState wname)).2.m_joinable = false ∧
      (kill (mkState wname)).2.m_running = false) ∧
    ((kill (threadFinish (start (mkState wname) true).2 (some 7))).1 = false ∧
      (kill (threadFinish (start (mkState wname) true).2 (some 7))).2.m_joinable
        = false) :=
  have h2 := C7_kill_not_running
    (threadFinish (start (mkState wname) true).2 (some 7)) (by decide)
  ⟨C7_kill_not_running (mkState wname) (by decide), by rw [h2.1], h2.2.1⟩

/-- C8: on the POSIX path, `setPriority` returns false (having computed
nothing) when the scheduling-parameter query fails; otherwise it submits
exactly `min + prio * (max - min) / THREAD_PRIORITY_HIGHEST` (C integer
division) as the native priority, and its boolean result is exactly the
success of `pthread_setschedparam`. -/
theorem C8_setPriority_formula (prio schedMin schedMax maxLevel : Int)
    (setOk : Bool) :
    setPriority prio schedMin schedMax maxLevel false setOk = (false, none) ∧
    setPriority prio schedMin schedMax maxLevel true setOk =
      (setOk, some (schedMin + Int.tdiv (prio * (schedMax - schedMin)) maxLevel)) := by
  constructor <;> simp [setPriority]

/-- C9: `stop()` always returns true and its only effect is setting
`m_request_stop` (it is a single unconditional store, never blocking);
moreover the core itself never acts on `m_request_stop`: the results of
`start`, `wait`, `kill` and `getReturnValue` are unaffected by its
value. -/
theorem C9_stop_spec (s : State) (b ok : Bool) (v : RetVal) :
    stop s = (true, { s with m_request_stop := true }) ∧
    (start { s with m_request_stop := b } ok).1 = (start s ok).1 ∧
    (wait { s with m_request_stop := b } v).1 = (wait s v).1 ∧
    (kill { s with m_request_stop := b }).1 = (kill s).1 ∧
    getReturnValue { s with m_request_stop := b } = getReturnValue s := by
  refine ⟨rfl, ?_, ?_, ?_, ?_⟩ <;>
    by_cases hr : s.m_running <;> by_cases hj : s.m_joinable <;>
      simp [start, wait, kill, getReturnValue, threadFinish, hr, hj]

/-- C10: a freshly constructed instance has `m_running`, `m_joinable`,
`m_request_stop` all false and `m_retval` null; consequently `wait`
returns false with no change, `kill` returns false leaving the same fresh
state, and `getReturnValue` succeeds yielding null. -/
theorem C10_fresh_state (name : String) (v : RetVal) :
    (mkState name).m_running = false ∧
    (mkState name).m_joinable = false ∧
    (mkState name).m_request_stop = false ∧
    (mkState name).m_retval = none ∧
    wait (mkState name) v = (false, mkState name) ∧
    kill (mkState name) = (false, mkState name) ∧
    getReturnValue (mkState name) = (true, some none) := by
  refine ⟨rfl, rfl, rfl, rfl, ?_, ?_, rfl⟩
  · simp [wait, mkState]
  · simp [kill, wait, mkState]

end Thread
